import Mathlib

/-!
Shallow embedding of the TuneCent backend's deterministic analytics and
scoring engine (package `mockdata`, file `internal/pkg/mockdata` shipped via
`deploy.sh`, and `internal/services/reinvestment_service.go`).

Go `float64` arithmetic is modelled over `ℚ`; Go's `math.Round`
(round half away from zero), `math.Min`, float-to-integer conversion
(truncation toward zero) and integer division (truncation toward zero) are
modelled explicitly below.  Go unsigned integers are modelled as `ℕ`
(with explicit `% 2^64` where a sum could wrap), Go `int` as `ℤ`.
-/

namespace TuneCent

/-- Go `math.Round`: rounds half away from zero. -/
def goRound (q : ℚ) : ℤ := if q < 0 then ⌈q - 1/2⌉ else ⌊q + 1/2⌋

/-- The Go idiom `math.Round(x*100)/100`: round to 2 decimals. -/
def round2 (q : ℚ) : ℚ := (goRound (q * 100) : ℚ) / 100

/-- Go conversion of a `float64` to an integer type: truncation toward zero. -/
def goTrunc (q : ℚ) : ℤ := if q < 0 then ⌈q⌉ else ⌊q⌋

/-- Go conversion `uint64(f)` for the non-negative values produced here:
truncation toward zero, i.e. the floor. -/
def goUInt64OfQ (q : ℚ) : ℕ := (goTrunc q).toNat

/-- Value range of Go `uint64`, for explicit wrap-around of sums. -/
def U64 : ℕ := 18446744073709551616

/-- Mirrors Go struct `mockdata.PlatformStat` (fields absent for a given
platform are zero, as with `omitempty` JSON marshalling). -/
structure PlatformStat where
  platform : String
  plays : ℕ
  views : ℕ
  listeners : ℕ
  uses : ℕ
  growth : ℚ
deriving DecidableEq

/-- Mirrors Go struct `mockdata.PlatformStats`. -/
structure PlatformStats where
  spotify : PlatformStat
  tiktok : PlatformStat
  appleMusic : PlatformStat
deriving DecidableEq

/-- Mirrors `mockdata.GenerateViralScore(playCount, viewCount, listenerCount
uint64, daysSince float64) float64`. -/
def generateViralScore (playCount viewCount listenerCount : ℕ)
    (daysSinceIn : ℚ) : ℚ :=
  let daysSince := if daysSinceIn < 1 then 1 else daysSinceIn
  let playsPerDay := (playCount : ℚ) / daysSince
  let viewsPerDay := (viewCount : ℚ) / daysSince
  let listenersPerDay := (listenerCount : ℚ) / daysSince
  let playScore := min (playsPerDay / 1000 * 30) 30
  let viewScore := min (viewsPerDay / 2000 * 30) 30
  let listenerScore := min (listenersPerDay / 500 * 20) 20
  let timeBonus := min (daysSince / 30 * 20) 20
  let viralScore := playScore + viewScore + listenerScore + timeBonus
  let viralScore := if viralScore > 100 then 100 else viralScore
  round2 viralScore

/-- Mirrors `mockdata.GenerateTrendingRank(viralScore float64, totalSongs
int) int`.  `totalSongs/5` is Go `int` division (truncation toward zero,
`Int.tdiv`); `int(...)` of a float truncates toward zero (`goTrunc`). -/
def generateTrendingRank (viralScore : ℚ) (totalSongs : ℤ) : ℤ :=
  let trendingThreshold : ℚ := 60.0
  if viralScore ≥ trendingThreshold then
    let rank := goTrunc ((100 - viralScore) / 5) + 1
    let rank := if rank < 1 then 1 else rank
    if rank > Int.tdiv totalSongs 5 then 0 else rank
  else 0

/-- Mirrors `mockdata.GenerateEstimatedReach(stats PlatformStats) uint64`.
`stats.TikTok.Views/10` is `uint64` integer division; the three-way sum is
`uint64` addition (wraps modulo `2^64`); `uint64(float64(total) * 0.7)`
truncates toward zero. -/
def generateEstimatedReach (stats : PlatformStats) : ℕ :=
  let total := (stats.spotify.listeners + stats.tiktok.views / 10 +
    stats.appleMusic.listeners) % U64
  goUInt64OfQ ((total : ℚ) * 0.7)

/-- Spec-side formula for claim C3, following the spec's words literally:
"reach = round((spotifyListeners + tiktokViews/10 + appleListeners) × 0.7)"
with exact (rational) division and rounding.  Compared against
`generateEstimatedReach` (the source embedding). -/
def reachClaim (stats : PlatformStats) : ℤ :=
  goRound (((stats.spotify.listeners : ℚ) + (stats.tiktok.views : ℚ) / 10 +
    (stats.appleMusic.listeners : ℚ)) * 0.7)

/-- Amended spec-side formula for claim C3: as `reachClaim` but with the
source's `uint64` integer division `tiktokViews/10` and truncation (floor)
instead of rounding. -/
def reachAmended (stats : PlatformStats) : ℤ :=
  ⌊((stats.spotify.listeners + stats.tiktok.views / 10 +
    stats.appleMusic.listeners : ℕ) : ℚ) * 0.7⌋

/-- Mirrors `mockdata.GenerateRiskScore(fundingPercentage float64,
contributorCount uint, creatorReputation uint) uint8`.  The final
`uint8(risk)` conversion truncates toward zero; the preceding clamps keep
`risk` in `[0,100]`, inside the `uint8` range. -/
def generateRiskScore (fundingPercentage : ℚ)
    (contributorCount creatorReputation : ℕ) : ℕ :=
  let risk : ℚ := 100
  let risk := risk - min fundingPercentage 100 * 0.4
  let contributorScore := min ((contributorCount : ℚ) * 2) 100
  let risk := risk - contributorScore * 0.3
  let reputationScore := min ((creatorReputation : ℚ) * 10) 100
  let risk := risk - reputationScore * 0.3
  let risk := if risk < 0 then 0 else risk
  let risk := if risk > 100 then 100 else risk
  (goTrunc risk).toNat

/-- Mirrors `mockdata.GenerateROI(fundingPercentage float64, riskScore
uint8, daysSinceCreation float64) float64`. -/
def generateROI (fundingPercentage : ℚ) (riskScore : ℕ)
    (daysSinceCreation : ℚ) : ℚ :=
  let baseROI : ℚ := 150.0
  let fundingBonus := fundingPercentage / 100 * 50
  let riskPenalty := (riskScore : ℚ) * 0.5
  let timeFactor := min (daysSinceCreation / 30) 5 * 10
  let estimatedROI := baseROI + fundingBonus - riskPenalty + timeFactor
  let estimatedROI := if estimatedROI < 80 then 80 else estimatedROI
  let estimatedROI := if estimatedROI > 300 then 300 else estimatedROI
  round2 estimatedROI

/-- Mirrors `mockdata.GenerateTier(totalWorks uint, totalEarningsEth
float64) string`. -/
def generateTier (totalWorks : ℕ) (totalEarningsEth : ℚ) : String :=
  if totalWorks ≥ 50 ∨ totalEarningsEth ≥ 100 then "Legendary Creator"
  else if totalWorks ≥ 20 ∨ totalEarningsEth ≥ 50 then "Rising Star"
  else if totalWorks ≥ 10 ∨ totalEarningsEth ≥ 20 then "Established Creator"
  else if totalWorks ≥ 5 ∨ totalEarningsEth ≥ 5 then "Verified Creator"
  else "Registered Creator"

/-- Go reinterpretation `int64(tokenID)` of a `uint64` token id, used as the
PRNG seed in `GeneratePlatformStats`. -/
def int64OfUInt64 (n : ℕ) : ℤ :=
  if n % U64 < 2 ^ 63 then ((n % U64 : ℕ) : ℤ) else ((n % U64 : ℕ) : ℤ) - (U64 : ℤ)

/-- Mirrors `mockdata.randomRange(r *rand.Rand, min, max float64)`:
`min + r.Float64()*(max-min)`, where `v` is the drawn `Float64` value. -/
def randomRange (v lo hi : ℚ) : ℚ := lo + v * (hi - lo)

/-- Ambient process state visible to `GeneratePlatformStats`: the wall
clock (read through `time.Since(registeredAt)`, in hours) and any ambient
randomness of the process (which the function never reads — it builds its
own generator from the token id alone).  Used to state the determinism
hyperproperty C4. -/
structure AmbientEnv where
  nowHours : ℚ
  ambient : ℕ → ℚ

/-- Mirrors `mockdata.GeneratePlatformStats(tokenID uint64, registeredAt
time.Time) PlatformStats`.

The function is parameterized by `src`, the `Float64` stream of a
`rand.New(rand.NewSource(seed))` generator (`src seed i` = the i-th
`Float64()` draw of the generator seeded with `seed`; `math/rand` is
standard-library code outside this repository, and a deterministically
seeded source is a pure function of its seed), and by `log10`, the pure
`math.Log10`.  All results below hold for every such pair of pure
functions.  Draws are threaded in the exact order the source makes them:
the three platform multipliers first, then base count / growth draws per
platform.  `registeredAt` is in hours on the same clock as
`env.nowHours`; `time.Since(registeredAt).Hours()/24` becomes
`(env.nowHours - registeredAt) / 24`. -/
def generatePlatformStats (src : ℤ → ℕ → ℚ) (log10 : ℚ → ℚ)
    (tokenID : ℕ) (registeredAt : ℚ) (env : AmbientEnv) : PlatformStats :=
  let seed := int64OfUInt64 tokenID
  let f := src seed
  let daysSince0 := (env.nowHours - registeredAt) / 24
  let daysSince := if daysSince0 < 1 then 1 else daysSince0
  let growthFactor := 1.0 + log10 (daysSince / 7 + 1)
  let spotifyMultiplier := 1.0 + f 0 * 2.0
  let tiktokMultiplier := 2.0 + f 1 * 3.0
  let appleMultiplier := 0.6 + f 2 * 1.0
  let spotifyPlays := goUInt64OfQ (randomRange (f 3) 5000 50000 *
    spotifyMultiplier * growthFactor)
  let spotifyListeners := goUInt64OfQ ((spotifyPlays : ℚ) * 0.65)
  let spotifyGrowth := randomRange (f 4) 100 800
  let tiktokViews := goUInt64OfQ (randomRange (f 5) 10000 200000 *
    tiktokMultiplier * growthFactor)
  let tiktokUses := goUInt64OfQ (randomRange (f 6) 50 500 * tiktokMultiplier)
  let tiktokGrowth := randomRange (f 7) 150 1000
  let applePlays := goUInt64OfQ (randomRange (f 8) 3000 40000 *
    appleMultiplier * growthFactor)
  let appleListeners := goUInt64OfQ ((applePlays : ℚ) * 0.70)
  let appleGrowth := randomRange (f 9) 50 500
  { spotify :=
      { platform := "Spotify", plays := spotifyPlays, views := 0,
        listeners := spotifyListeners, uses := 0, growth := spotifyGrowth },
    tiktok :=
      { platform := "TikTok", plays := 0, views := tiktokViews,
        listeners := 0, uses := tiktokUses, growth := tiktokGrowth },
    appleMusic :=
      { platform := "Apple Music", plays := applePlays, views := 0,
        listeners := appleListeners, uses := 0, growth := appleGrowth } }

/-- One row of the `campaigns`-join query in
`ReinvestmentService.GetSuggestions` (columns selected by the query, plus
the `status` column it filters on). -/
structure CampaignData where
  campaignID : ℕ
  tokenID : ℕ
  musicTitle : String
  musicArtist : String
  royaltyPercentage : ℕ
  estimatedROI : ℚ
  riskScore : ℕ
  status : String
deriving DecidableEq

/-- The `WHERE campaigns.status = 'active' AND campaigns.risk_score < 70`
filter of `GetSuggestions`. -/
def suggestionEligible (c : CampaignData) : Bool :=
  c.status == "active" && c.riskScore < 70

/-- The `ORDER BY campaigns.estimated_roi DESC, campaigns.risk_score ASC`
ordering of `GetSuggestions`, as a total preorder. -/
def suggestionOrder (a b : CampaignData) : Prop :=
  b.estimatedROI < a.estimatedROI ∨
    (a.estimatedROI = b.estimatedROI ∧ a.riskScore ≤ b.riskScore)

instance : DecidableRel suggestionOrder := fun a b => by
  unfold suggestionOrder; exact inferInstance

instance : IsTotal CampaignData suggestionOrder where
  total a b := by
    unfold suggestionOrder
    rcases lt_trichotomy a.estimatedROI b.estimatedROI with h | h | h
    · exact Or.inr (Or.inl h)
    · rcases Nat.le_total a.riskScore b.riskScore with hr | hr
      · exact Or.inl (Or.inr ⟨h, hr⟩)
      · exact Or.inr (Or.inr ⟨h.symm, hr⟩)
    · exact Or.inl (Or.inl h)

instance : IsTrans CampaignData suggestionOrder where
  trans a b c hab hbc := by
    unfold suggestionOrder at *
    rcases hab with h1 | ⟨h1, h1r⟩ <;> rcases hbc with h2 | ⟨h2, h2r⟩
    · exact Or.inl (h2.trans h1)
    · exact Or.inl (h2 ▸ h1)
    · exact Or.inl (by rw [h1]; exact h2)
    · exact Or.inr ⟨h1.trans h2, h1r.trans h2r⟩

/-- The campaign-selection core of `GetSuggestions`: the SQL filter,
two-key ordering and `LIMIT 5`, as a pure function of the campaign rows. -/
def selectCampaigns (rows : List CampaignData) : List CampaignData :=
  (List.insertionSort suggestionOrder (rows.filter suggestionEligible)).take 5

/-- Go `%.1f` formatting (`strconv` rounds to nearest, ties to even). -/
def roundHalfEven (q : ℚ) : ℤ :=
  if q - ⌊q⌋ > 1/2 then ⌊q⌋ + 1
  else if q - ⌊q⌋ < 1/2 then ⌊q⌋
  else if ⌊q⌋ % 2 = 0 then ⌊q⌋ else ⌊q⌋ + 1

/-- Renders a rational with one decimal place, as Go `fmt.Sprintf("%.1f")`
renders the corresponding value. -/
def fmtF1 (q : ℚ) : String :=
  let n := roundHalfEven (q * 10)
  let sign := if n < 0 then "-" else ""
  sign ++ toString (n.natAbs / 10) ++ "." ++ toString (n.natAbs % 10)

/-- The reasoning string `GetSuggestions` synthesizes per entry (the funded
percentage is the literal mock constant `75.0`). -/
def buildReasoning (roi : ℚ) (risk : ℕ) : String :=
  "High ROI potential (" ++ fmtF1 roi ++ "%) with low risk score (" ++
    toString risk ++ "/100). Currently 75% funded."

/-- Mirrors the `SuggestedPool` response struct of the reinvestment
service. -/
structure SuggestedPool where
  campaignID : ℕ
  tokenID : ℕ
  musicTitle : String
  musicArtist : String
  royaltyPercentage : ℕ
  estimatedROI : ℚ
  riskScore : ℕ
  reasoning : String
deriving DecidableEq

/-- Mirrors the in-memory result of `GetSuggestions` (the fields computed
by the engine itself; `AvailableFunds` comes from the excluded storage
layer and is threaded through unchanged). -/
structure SuggestionResponseModel where
  userAddress : String
  availableFunds : String
  suggestedPools : List SuggestedPool
  totalExpectedROI : ℚ
deriving DecidableEq

/-- Mirrors the pure computation of `ReinvestmentService.GetSuggestions`:
build a `SuggestedPool` per selected campaign, sum their ROI, and average
(guarding the empty batch with `avgROI = 0`).  The function is total — the
Go code returns a `nil` error on this path unconditionally. -/
def getSuggestions (userAddress availableFunds : String)
    (rows : List CampaignData) : SuggestionResponseModel :=
  let campaigns := selectCampaigns rows
  let suggestions := campaigns.map fun c =>
    { campaignID := c.campaignID, tokenID := c.tokenID,
      musicTitle := c.musicTitle, musicArtist := c.musicArtist,
      royaltyPercentage := c.royaltyPercentage,
      estimatedROI := c.estimatedROI, riskScore := c.riskScore,
      reasoning := buildReasoning c.estimatedROI c.riskScore :
      SuggestedPool }
  let totalROI := (campaigns.map fun c => c.estimatedROI).sum
  let avgROI := if suggestions.length > 0 then
    totalROI / (suggestions.length : ℚ) else 0
  { userAddress := userAddress, availableFunds := availableFunds,
    suggestedPools := suggestions, totalExpectedROI := avgROI }

/-- Concrete platform stats with a single Spotify listener and all other
metrics zero (input for the C3 counterexample). -/
def statsOneListener : PlatformStats :=
  { spotify :=
      { platform := "Spotify", plays := 0, views := 0, listeners := 1,
        uses := 0, growth := 0 },
    tiktok :=
      { platform := "TikTok", plays := 0, views := 0, listeners := 0,
        uses := 0, growth := 0 },
    appleMusic :=
      { platform := "Apple Music", plays := 0, views := 0, listeners := 0,
        uses := 0, growth := 0 } }

/-- Concrete platform stats with ten Spotify listeners (input for the C3
witness). -/
def statsTenListeners : PlatformStats :=
  { spotify :=
      { platform := "Spotify", plays := 0, views := 0, listeners := 10,
        uses := 0, growth := 0 },
    tiktok :=
      { platform := "TikTok", plays := 0, views := 0, listeners := 0,
        uses := 0, growth := 0 },
    appleMusic :=
      { platform := "Apple Music", plays := 0, views := 0, listeners := 0,
        uses := 0, growth := 0 } }

/-- Concrete campaign rows exercising the C5 filter, ordering and bound:
three eligible active campaigns, one active campaign at risk exactly 70,
and one non-active campaign. -/
def wRows : List CampaignData :=
  [ { campaignID := 1, tokenID := 11, musicTitle := "A", musicArtist := "a",
      royaltyPercentage := 10, estimatedROI := 200, riskScore := 10,
      status := "active" },
    { campaignID := 2, tokenID := 12, musicTitle := "B", musicArtist := "b",
      royaltyPercentage := 10, estimatedROI := 180, riskScore := 5,
      status := "active" },
    { campaignID := 3, tokenID := 13, musicTitle := "C", musicArtist := "c",
      royaltyPercentage := 10, estimatedROI := 220, riskScore := 60,
      status := "active" },
    { campaignID := 4, tokenID := 14, musicTitle := "D", musicArtist := "d",
      royaltyPercentage := 10, estimatedROI := 500, riskScore := 70,
      status := "active" },
    { campaignID := 5, tokenID := 15, musicTitle := "E", musicArtist := "e",
      royaltyPercentage := 10, estimatedROI := 500, riskScore := 1,
      status := "completed" } ]

/-- Concrete pure stand-in for the seeded `Float64` stream (C4 witness). -/
def wSrc : ℤ → ℕ → ℚ := fun s n => (s + (n : ℤ)) / 1000

/-- Concrete pure stand-in for `math.Log10` (C4 witness). -/
def wLog10 : ℚ → ℚ := fun q => q / 10

/-! ## Helper lemmas -/

/-- Go `math.Round` is monotone. -/
lemma goRound_mono {a b : ℚ} (h : a ≤ b) : goRound a ≤ goRound b := by
  unfold goRound
  rcases lt_or_le a 0 with ha | ha <;> rcases lt_or_le b 0 with hb | hb
  · rw [if_pos ha, if_pos hb]
    exact Int.ceil_le_ceil (by linarith)
  · rw [if_pos ha, if_neg (not_lt.2 hb)]
    have h1 : (⌈a - 1/2⌉ : ℤ) ≤ 0 := Int.ceil_le.2 (by push_cast; linarith)
    have h2 : (0 : ℤ) ≤ ⌊b + 1/2⌋ := Int.le_floor.2 (by push_cast; linarith)
    omega
  · exact absurd hb (not_lt.2 (le_trans ha h))
  · rw [if_neg (not_lt.2 ha), if_neg (not_lt.2 hb)]
    exact Int.floor_le_floor (by linarith)

/-- Rounding to two decimals is monotone. -/
lemma round2_mono {a b : ℚ} (h : a ≤ b) : round2 a ≤ round2 b := by
  unfold round2
  have h1 := goRound_mono (mul_le_mul_of_nonneg_right h
    (by norm_num : (0:ℚ) ≤ 100))
  have h2 : ((goRound (a * 100) : ℤ) : ℚ) ≤ ((goRound (b * 100) : ℤ) : ℚ) := by
    exact_mod_cast h1
  exact (div_le_div_iff_of_pos_right (by norm_num : (0:ℚ) < 100)).2 h2

/-- Go `int` division of anything below 5 by 5 is not positive. -/
lemma tdiv_five_nonpos {t : ℤ} (h : t < 5) : Int.tdiv t 5 ≤ 0 := by
  cases t with
  | ofNat m =>
    show Int.tdiv (Int.ofNat m) (Int.ofNat 5) ≤ 0
    simp only [Int.tdiv, Int.ofNat_eq_natCast] at *
    have hm : m < 5 := by exact_mod_cast h
    have h5 : m / 5 = 0 := Nat.div_eq_of_lt hm
    rw [h5]
    exact le_refl 0
  | negSucc m =>
    show Int.tdiv (Int.negSucc m) (Int.ofNat 5) ≤ 0
    simp only [Int.tdiv, Int.ofNat_eq_natCast]
    omega

/-- A per-day engagement sub-score of `GenerateViralScore` is constant in
the age `d` over `[1, 40]` when the raw count is either zero or large
enough to keep the sub-score saturated at its cap. -/
lemma subscore_const (n : ℕ) (d per cap thresh : ℚ) (hd1 : 1 ≤ d)
    (hd2 : d ≤ 40) (hper : 0 < per) (hcap : 0 < cap)
    (ht : thresh = 40 * per) (hn : n = 0 ∨ thresh ≤ (n : ℚ)) :
    min ((n : ℚ) / d / per * cap) cap = if n = 0 then 0 else cap := by
  rcases hn with h | h
  · subst h
    rw [if_pos rfl]
    push_cast
    rw [zero_div, zero_div, zero_mul, min_eq_left hcap.le]
  · have hn0 : n ≠ 0 := by
      rintro rfl
      rw [ht] at h
      push_cast at h
      nlinarith
    rw [if_neg hn0]
    apply min_eq_right
    rw [div_div, div_mul_eq_mul_div, le_div_iff₀ (by positivity)]
    have hdp : d * per ≤ thresh := by rw [ht]; nlinarith
    have h1 : d * per ≤ (n : ℚ) := le_trans hdp h
    nlinarith [mul_le_mul_of_nonneg_left h1 hcap.le]

/-! ## Claim theorems -/

/-- Claim C1 counterexample: the ROI estimator does not satisfy the spec's
point evaluations.  At `(fundingRatioPercent = 0, risk = 100, ageDays = 0)`
the formula gives `150 + 0 - 50 + 0 = 100`, inside the clamp range, not the
claimed floor value 80 (and at `(100, 0, 365)` it gives 250, not 300). -/
theorem c1_roi_points_counterexample :
    ¬ (generateROI 0 100 0 = 80 ∧ generateROI 100 0 365 = 300 ∧
       generateROI 100 0 150 = 250) := by
  have h1 : generateROI 0 100 0 = 100 := by
    norm_num [generateROI, round2, goRound, min_def]
  rintro ⟨ha, -, -⟩
  rw [h1] at ha
  norm_num at ha

/-- Claim C1, amended: the three point evaluations of the ROI estimator are
`roi(0, 100, 0) = 100`, `roi(100, 0, 365) = 250` and
`roi(100, 0, 150) = 250` (the formula, clamp and rounding are as the claim
states; only the first two claimed output values were wrong). -/
theorem c1_roi_points :
    generateROI 0 100 0 = 100 ∧ generateROI 100 0 365 = 250 ∧
      generateROI 100 0 150 = 250 := by
  refine ⟨?_, ?_, ?_⟩ <;> norm_num [generateROI, round2, goRound, min_def]

/-- Claim C7: every viral score strictly below 60 yields trending rank 0,
for every population size. -/
theorem c7_trending_gate (score : ℚ) (total : ℤ) (h : score < 60) :
    generateTrendingRank score total = 0 := by
  simp only [generateTrendingRank]
  rw [if_neg]
  exact not_le.mpr (lt_of_lt_of_le h (by norm_num))

/-- Witness for C7 at score 59 and population one million. -/
theorem c7_trending_gate_witness :
    (59 : ℚ) < 60 ∧ generateTrendingRank 59 1000000 = 0 :=
  ⟨by norm_num, c7_trending_gate 59 1000000 (by norm_num)⟩

/-- Claim C10: in any population smaller than 5 no entity is trending —
`totalSongs/5` is Go integer division, so the top-20% cutoff is at most 0,
while every candidate rank is at least 1. -/
theorem c10_small_population (score : ℚ) (total : ℤ) (h : total < 5) :
    generateTrendingRank score total = 0 := by
  simp only [generateTrendingRank]
  by_cases hs : score ≥ (60.0 : ℚ)
  · rw [if_pos hs]
    have hd : Int.tdiv total 5 ≤ 0 := tdiv_five_nonpos h
    have hrank : Int.tdiv total 5 <
        (if goTrunc ((100 - score) / 5) + 1 < 1 then 1
          else goTrunc ((100 - score) / 5) + 1) := by
      split_ifs <;> omega
    rw [if_pos hrank]
  · rw [if_neg hs]

/-- Witness for C10 at score 90 (well above the trending threshold) and
population 4. -/
theorem c10_small_population_witness :
    (4 : ℤ) < 5 ∧ generateTrendingRank 90 4 = 0 :=
  ⟨by norm_num, c10_small_population 90 4 (by norm_num)⟩

/-- The clamp-then-truncate tail of `GenerateRiskScore` lands in
`[0, 100]` for every intermediate value. -/
lemma clampTrunc_le (R : ℚ) :
    (goTrunc (if (if R < 0 then (0:ℚ) else R) > 100 then 100
      else if R < 0 then (0:ℚ) else R)).toNat ≤ 100 := by
  have hA : 0 ≤ (if R < 0 then (0:ℚ) else R) := by
    split_ifs with h
    · exact le_refl 0
    · exact le_of_not_lt h
  have hB : (if (if R < 0 then (0:ℚ) else R) > 100 then (100:ℚ)
      else if R < 0 then (0:ℚ) else R) ≤ 100 := by
    split_ifs with h1 h2 <;> linarith
  have hB0 : 0 ≤ (if (if R < 0 then (0:ℚ) else R) > 100 then (100:ℚ)
      else if R < 0 then (0:ℚ) else R) := by
    split_ifs <;> first | exact le_of_not_lt (by assumption) | norm_num
  rw [goTrunc, if_neg (not_lt.2 hB0)]
  have : (⌊(if (if R < 0 then (0:ℚ) else R) > 100 then (100:ℚ)
      else if R < 0 then (0:ℚ) else R)⌋ : ℤ) ≤ 100 := by
    calc (⌊(if (if R < 0 then (0:ℚ) else R) > 100 then (100:ℚ)
        else if R < 0 then (0:ℚ) else R)⌋ : ℤ) ≤ ⌊(100:ℚ)⌋ :=
          Int.floor_le_floor hB
      _ = 100 := by norm_num
  omega

/-- Claim C8: the risk score saturates additively —
`riskScore(100, 1000, 1000) = 0` because the three reductions cap at
40, 30 and 30 — and for every non-negative funding ratio the score lies in
`[0, 100]`. -/
theorem c8_risk_bounds :
    generateRiskScore 100 1000 1000 = 0 ∧
      ∀ (fp : ℚ) (c rep : ℕ), 0 ≤ fp →
        0 ≤ generateRiskScore fp c rep ∧ generateRiskScore fp c rep ≤ 100 := by
  constructor
  · norm_num [generateRiskScore, goTrunc, min_def]
  · intro fp c rep _
    refine ⟨Nat.zero_le _, ?_⟩
    simp only [generateRiskScore]
    exact clampTrunc_le _

/-- Witness for C8 at funding 50%, 3 contributors, reputation 2. -/
theorem c8_risk_bounds_witness :
    (0:ℚ) ≤ 50 ∧ generateRiskScore 50 3 2 ≤ 100 :=
  ⟨by norm_num, (c8_risk_bounds.2 50 3 2 (by norm_num)).2⟩

/-- Claim C9 counterexample: the tier classifier returns the label
"Legendary Creator", not the claim's literal label "Legendary", at
`totalWorks = 50`. -/
theorem c9_tier_counterexample : generateTier 50 0 ≠ "Legendary" := by
  simp [generateTier]

/-- Claim C9, amended: the tier classifier is the ordered first-match
cascade the claim states, with either dimension alone promoting, but the
labels are "Legendary Creator", "Rising Star", "Established Creator",
"Verified Creator" and "Registered Creator". -/
theorem c9_tier_cascade (w : ℕ) (e : ℚ) (he : 0 ≤ e) :
    (generateTier w e = "Legendary Creator" ↔ (50 ≤ w ∨ 100 ≤ e)) ∧
    (generateTier w e = "Rising Star" ↔
      (¬ (50 ≤ w ∨ 100 ≤ e) ∧ (20 ≤ w ∨ 50 ≤ e))) ∧
    (generateTier w e = "Established Creator" ↔
      (¬ (50 ≤ w ∨ 100 ≤ e) ∧ ¬ (20 ≤ w ∨ 50 ≤ e) ∧ (10 ≤ w ∨ 20 ≤ e))) ∧
    (generateTier w e = "Verified Creator" ↔
      (¬ (50 ≤ w ∨ 100 ≤ e) ∧ ¬ (20 ≤ w ∨ 50 ≤ e) ∧ ¬ (10 ≤ w ∨ 20 ≤ e) ∧
        (5 ≤ w ∨ 5 ≤ e))) ∧
    (generateTier w e = "Registered Creator" ↔
      (¬ (50 ≤ w ∨ 100 ≤ e) ∧ ¬ (20 ≤ w ∨ 50 ≤ e) ∧ ¬ (10 ≤ w ∨ 20 ≤ e) ∧
        ¬ (5 ≤ w ∨ 5 ≤ e))) := by
  unfold generateTier
  split_ifs with h1 h2 h3 h4 <;>
    refine ⟨?_, ?_, ?_, ?_, ?_⟩ <;> simp_all

/-- Witness for C9 at 7 works and 0 earnings: "Verified Creator". -/
theorem c9_tier_cascade_witness : generateTier 7 0 = "Verified Creator" :=
  ((c9_tier_cascade 7 0 (by norm_num)).2.2.2.1).mpr
    ⟨by norm_num, by norm_num, by norm_num, Or.inl (by norm_num)⟩

/-- Claim C2 counterexample: the viral score is not monotone in age for
fixed raw metrics.  With `playCount = 10000` and the other metrics zero,
the per-day normalization gives score 36.67 at age 10 but only 27.5 at
age 40 (the play sub-score falls from its cap 30 to 7.5, outweighing the
time-bonus gain). -/
theorem c2_viral_counterexample :
    ¬ (generateViralScore 10000 0 0 40 ≥ generateViralScore 10000 0 0 10) := by
  norm_num [generateViralScore, round2, goRound, min_def]

/-- Claim C2, amended: the viral score is monotone from age 10 to age 40
for metrics whose per-day sub-scores do not decay — each raw count either
zero or large enough to stay at its saturation cap at age 40
(`playCount ≥ 40000`, `viewCount ≥ 80000`, `listenerCount ≥ 20000`).  In
general the claimed inequality fails (see the counterexample) because the
engagement sub-scores are normalized per day and so decrease with age. -/
theorem c2_viral_monotone_saturated (p v l : ℕ)
    (hp : p = 0 ∨ 40000 ≤ p) (hv : v = 0 ∨ 80000 ≤ v)
    (hl : l = 0 ∨ 20000 ≤ l) :
    generateViralScore p v l 40 ≥ generateViralScore p v l 10 := by
  have hp' : p = 0 ∨ (40000 : ℚ) ≤ (p : ℚ) := by
    rcases hp with h | h
    · exact Or.inl h
    · exact Or.inr (by exact_mod_cast h)
  have hv' : v = 0 ∨ (80000 : ℚ) ≤ (v : ℚ) := by
    rcases hv with h | h
    · exact Or.inl h
    · exact Or.inr (by exact_mod_cast h)
  have hl' : l = 0 ∨ (20000 : ℚ) ≤ (l : ℚ) := by
    rcases hl with h | h
    · exact Or.inl h
    · exact Or.inr (by exact_mod_cast h)
  show generateViralScore p v l 10 ≤ generateViralScore p v l 40
  simp only [generateViralScore]
  rw [if_neg (by norm_num : ¬ (10:ℚ) < 1), if_neg (by norm_num : ¬ (40:ℚ) < 1)]
  rw [subscore_const p 10 1000 30 40000 (by norm_num) (by norm_num)
      (by norm_num) (by norm_num) (by norm_num) hp',
    subscore_const v 10 2000 30 80000 (by norm_num) (by norm_num)
      (by norm_num) (by norm_num) (by norm_num) hv',
    subscore_const l 10 500 20 20000 (by norm_num) (by norm_num)
      (by norm_num) (by norm_num) (by norm_num) hl',
    subscore_const p 40 1000 30 40000 (by norm_num) (by norm_num)
      (by norm_num) (by norm_num) (by norm_num) hp',
    subscore_const v 40 2000 30 80000 (by norm_num) (by norm_num)
      (by norm_num) (by norm_num) (by norm_num) hv',
    subscore_const l 40 500 20 20000 (by norm_num) (by norm_num)
      (by norm_num) (by norm_num) (by norm_num) hl']
  rw [show min ((10:ℚ) / 30 * 20) 20 = 20/3 by
      rw [min_eq_left (by norm_num)]; norm_num,
    min_eq_right (by norm_num : (20:ℚ) ≤ 40 / 30 * 20)]
  apply round2_mono
  have hm : ∀ x y : ℚ, x ≤ y →
      (if x > 100 then (100:ℚ) else x) ≤ (if y > 100 then (100:ℚ) else y) := by
    intro x y hxy
    split_ifs <;> linarith
  apply hm
  linarith

/-- Witness for the amended C2 at saturated play count 40000. -/
theorem c2_viral_monotone_saturated_witness :
    (40000 = 0 ∨ 40000 ≤ 40000) ∧
      generateViralScore 40000 0 0 40 ≥ generateViralScore 40000 0 0 10 :=
  ⟨Or.inr (le_refl 40000),
    c2_viral_monotone_saturated 40000 0 0 (Or.inr (le_refl 40000))
      (Or.inl rfl) (Or.inl rfl)⟩

/-- Claim C3 counterexample: the reach estimator truncates, it does not
round.  With one Spotify listener and all other metrics zero the code
computes `uint64(1 × 0.7) = 0`, while the claim's rounding formula gives
`round(0.7) = 1`. -/
theorem c3_reach_counterexample :
    generateEstimatedReach statsOneListener = 0 ∧
      reachClaim statsOneListener = 1 := by
  constructor
  · norm_num [generateEstimatedReach, statsOneListener, goUInt64OfQ,
      goTrunc, U64]
  · norm_num [reachClaim, statsOneListener, goRound]

/-- Claim C3, amended: reach is the floor (Go `uint64` truncation) of
`(spotifyListeners + tiktokViews/10 + appleListeners) × 0.7` with `uint64`
integer division by 10, whenever the sum does not wrap `uint64`; it is
never negative, and is 0 when all input metrics are 0. -/
theorem c3_reach_floor (s : PlatformStats)
    (h : s.spotify.listeners + s.tiktok.views / 10 +
      s.appleMusic.listeners < U64) :
    (generateEstimatedReach s : ℤ) = reachAmended s ∧
      0 ≤ reachAmended s ∧
      ((s.spotify.listeners = 0 ∧ s.tiktok.views = 0 ∧
        s.appleMusic.listeners = 0) → generateEstimatedReach s = 0) := by
  have hfl : (0:ℤ) ≤ ⌊((s.spotify.listeners + s.tiktok.views / 10 +
      s.appleMusic.listeners : ℕ) : ℚ) * 0.7⌋ := by
    apply Int.le_floor.2
    push_cast
    positivity
  refine ⟨?_, hfl, ?_⟩
  · simp only [generateEstimatedReach, reachAmended, goUInt64OfQ, goTrunc]
    rw [Nat.mod_eq_of_lt h]
    rw [if_neg (not_lt.2 (by push_cast; positivity))]
    exact Int.toNat_of_nonneg hfl
  · rintro ⟨h1, h2, h3⟩
    simp only [generateEstimatedReach, goUInt64OfQ, goTrunc]
    rw [h1, h2, h3]
    norm_num

/-- Witness for the amended C3 at ten Spotify listeners (reach 7). -/
theorem c3_reach_floor_witness :
    statsTenListeners.spotify.listeners +
        statsTenListeners.tiktok.views / 10 +
        statsTenListeners.appleMusic.listeners < U64 ∧
      (generateEstimatedReach statsTenListeners : ℤ) =
        reachAmended statsTenListeners :=
  ⟨by norm_num [statsTenListeners, U64],
    (c3_reach_floor statsTenListeners
      (by norm_num [statsTenListeners, U64])).1⟩

/-- Claim C4: the metric generator is deterministic.  Its PRNG is seeded
with the token id alone and every other quantity is a pure function of the
id and the supplied age, so the output depends on the ambient environment
(wall clock, ambient randomness) only through the derived age: two calls
whose clocks agree — in particular two calls at the same instant — yield
identical RawMetrics for every id, whatever the ambient randomness. -/
theorem c4_generator_deterministic (src : ℤ → ℕ → ℚ) (log10 : ℚ → ℚ)
    (tokenID : ℕ) (registeredAt : ℚ) (env₁ env₂ : AmbientEnv)
    (h : env₁.nowHours = env₂.nowHours) :
    generatePlatformStats src log10 tokenID registeredAt env₁ =
      generatePlatformStats src log10 tokenID registeredAt env₂ := by
  unfold generatePlatformStats
  rw [h]

/-- Witness for C4: same clock, different ambient randomness, token 7. -/
theorem c4_generator_deterministic_witness :
    AmbientEnv.nowHours ⟨240, fun _ => 0⟩ =
        AmbientEnv.nowHours ⟨240, fun n => (n : ℚ)⟩ ∧
      generatePlatformStats wSrc wLog10 7 0 ⟨240, fun _ => 0⟩ =
        generatePlatformStats wSrc wLog10 7 0 ⟨240, fun n => (n : ℚ)⟩ :=
  ⟨rfl, c4_generator_deterministic wSrc wLog10 7 0 _ _ rfl⟩

/-- Every campaign selected by `GetSuggestions` passed the SQL filter. -/
lemma selectCampaigns_subset_eligible {rows : List CampaignData}
    {c : CampaignData} (hc : c ∈ selectCampaigns rows) :
    c.status = "active" ∧ c.riskScore < 70 := by
  unfold selectCampaigns at hc
  have h1 := (List.take_sublist 5 _).subset hc
  have h2 := (List.perm_insertionSort suggestionOrder
    (rows.filter suggestionEligible)).subset h1
  have h3 := List.mem_filter.1 h2
  simpa [suggestionEligible] using h3.2

/-- Claim C5: the recommendation batch consists exactly of the campaigns
with status "active" and risk strictly below 70 (risk exactly 70 is
excluded), ordered by ROI descending with risk ascending as tie-break,
truncated to at most 5 entries: the batch never exceeds 5, contains only
eligible campaigns, is sorted by the two-key order, drops an eligible
campaign only when already full, and equals the eligible set (up to the
sort permutation) whenever at most 5 campaigns are eligible. -/
theorem c5_suggestions_shape (rows : List CampaignData) :
    (selectCampaigns rows).length ≤ 5 ∧
      (∀ c ∈ selectCampaigns rows, c.status = "active" ∧ c.riskScore < 70) ∧
      List.Sorted suggestionOrder (selectCampaigns rows) ∧
      (∀ c ∈ rows.filter suggestionEligible, c ∉ selectCampaigns rows →
        (selectCampaigns rows).length = 5) ∧
      ((rows.filter suggestionEligible).length ≤ 5 →
        List.Perm (selectCampaigns rows) (rows.filter suggestionEligible)) ∧
      (∀ c ∈ rows, c.riskScore = 70 → c ∉ selectCampaigns rows) := by
  have hperm := List.perm_insertionSort suggestionOrder
    (rows.filter suggestionEligible)
  refine ⟨?_, ?_, ?_, ?_, ?_, ?_⟩
  · unfold selectCampaigns
    rw [List.length_take]
    exact min_le_left _ _
  · intro c hc
    exact selectCampaigns_subset_eligible hc
  · unfold selectCampaigns
    exact List.Pairwise.sublist (List.take_sublist 5 _)
      (List.sorted_insertionSort suggestionOrder _)
  · intro c hc hout
    unfold selectCampaigns at *
    rcases le_or_lt (List.insertionSort suggestionOrder
        (rows.filter suggestionEligible)).length 5 with h5 | h5
    · rw [List.take_of_length_le h5] at hout
      exact absurd (hperm.mem_iff.2 hc) hout
    · rw [List.length_take]
      omega
  · intro h5
    unfold selectCampaigns
    rw [List.take_of_length_le (by rw [hperm.length_eq]; exact h5)]
    exact hperm
  · intro c _ h70 hout
    have := (selectCampaigns_subset_eligible hout).2
    omega

/-- Witness for C5 on five concrete rows (three eligible, one at risk 70,
one inactive): at most 5 are eligible, so the batch is a permutation of
the eligible set. -/
theorem c5_suggestions_shape_witness :
    (wRows.filter suggestionEligible).length ≤ 5 ∧
      List.Perm (selectCampaigns wRows) (wRows.filter suggestionEligible) :=
  ⟨by decide, (c5_suggestions_shape wRows).2.2.2.2.1 (by decide)⟩

/-- Claim C6: an empty eligible set yields an empty batch with average
ROI 0; the computation is total (this path of the Go code returns a `nil`
error unconditionally), so no error is raised. -/
theorem c6_empty_eligible (u funds : String) (rows : List CampaignData)
    (h : rows.filter suggestionEligible = []) :
    (getSuggestions u funds rows).suggestedPools = [] ∧
      (getSuggestions u funds rows).totalExpectedROI = 0 := by
  have hsel : selectCampaigns rows = [] := by
    unfold selectCampaigns
    rw [h]
    rfl
  constructor <;> simp [getSuggestions, hsel]

/-- Witness for C6 at the empty candidate list. -/
theorem c6_empty_eligible_witness :
    List.filter suggestionEligible ([] : List CampaignData) = [] ∧
      (getSuggestions "0xabc" "0" []).suggestedPools = [] ∧
      (getSuggestions "0xabc" "0" []).totalExpectedROI = 0 :=
  ⟨rfl, c6_empty_eligible "0xabc" "0" [] rfl⟩

end TuneCent
